import Mathlib

/-!
Verification of the notification automation engine
(`src/notifications/service.rs`, `src/notifications/models.rs`, `src/config.rs`).

The embedding is shallow: the data model mirrors the Rust structs field by
field; the stateful service functions are modelled as pure state
transformers that additionally emit an ordered list of `Event`s recording
the side effects (task aborts, task spawns, cache updates, focus calls and
sound playback) in program order.  `HashMap` is modelled as an association
list, `Instant` as a `Nat` timestamp (milliseconds), and the fallible
collaborator calls are modelled by passing their successful payloads as
parameters (the error paths skip the chat and are outside the claims).
-/

namespace BeeperAutomations

/-- `models.rs`: `enum AutomationType { Loop, Immediate }`. -/
inductive AutomationType where
  | Loop
  | Immediate
deriving DecidableEq, Repr

/-- `models.rs`: `enum LoopUntil { MessageSeen, Answer, ForATime }`. -/
inductive LoopUntil where
  | MessageSeen
  | Answer
  | ForATime
deriving DecidableEq, Repr

/-- `models.rs`: `struct LoopConfig { until, time, check_interval }`.
The Rust field `until` is a Lean keyword, hence `until_`. -/
structure LoopConfig where
  until_ : LoopUntil
  time : Option Nat
  check_interval : Nat
deriving DecidableEq, Repr

/-- `models.rs`: `struct NtfyConfig` (unused by the service logic). -/
structure NtfyConfig where
  enabled : Bool
  url : String
  message : String
  priority : Nat
deriving DecidableEq, Repr

/-- `models.rs`: `struct NotificationAutomation`. -/
structure NotificationAutomation where
  id : String
  name : String
  chat_ids : List String
  automation_type : AutomationType
  notification_sound : Option String
  focus_chat : Bool
  loop_config : Option LoopConfig
  enabled : Bool
  ntfy_config : Option NtfyConfig
deriving DecidableEq, Repr

/-- `config.rs`: `struct NotificationsConfig { automations: Vec<_> }`. -/
structure NotificationsConfig where
  automations : List NotificationAutomation
deriving DecidableEq, Repr

/-- `config.rs`: `struct ApiConfig { url, token }`. -/
structure ApiConfig where
  url : String
  token : String
deriving DecidableEq, Repr

/-- `config.rs`: `struct Config { api, notifications }`. -/
structure Config where
  api : ApiConfig
  notifications : NotificationsConfig
deriving DecidableEq, Repr

/-- External collaborator message record (`beeper_desktop_api`): only the
fields the service reads — `id`, `sort_key` (totally ordered as a string)
and the optional `is_sender` attribution. -/
structure Message where
  id : String
  sort_key : String
  is_sender : Option Bool
deriving DecidableEq, Repr

/-- External collaborator chat record: only `id` and `unread_count`. -/
structure Chat where
  id : String
  unread_count : Nat
deriving DecidableEq, Repr

/-- `service.rs`: `struct LastMessageCache`, with `Instant` modelled as a
`Nat` millisecond timestamp. -/
structure LastMessageCache where
  message_id : String
  sort_key : String
  notification_start_time : Option Nat
deriving DecidableEq, Repr

/-- A `JoinHandle` is modelled by the parameters the task was spawned
with: a loop task runs `start_loop_automation_static` on its automation, the
immediate watcher runs `start_immediate_watcher_static` on its chat id list. -/
inductive TaskHandle where
  | loopHandle (automation : NotificationAutomation)
  | immediateHandle (chat_ids : List String)
deriving DecidableEq, Repr

/-- `service.rs`: `struct AutomationTask { automation_id, handle }`. -/
structure AutomationTask where
  automation_id : String
  handle : TaskHandle
deriving DecidableEq, Repr

/-- Observable side effects, in program order. -/
inductive Event where
  | abortTask (automation_id : String)
  | spawnLoopTask (automation : NotificationAutomation)
  | spawnImmediateTask (chat_ids : List String)
  | updateCache (chat_id : String) (sort_key : String)
  | focusChat (chat_id : String)
  | playSound (path : String)
deriving DecidableEq, Repr

/-- The service's mutable state: the running-task vector and the shared
`last_messages` map (association list keyed by chat id). -/
structure ServiceState where
  automation_tasks : List AutomationTask
  last_messages : List (String × LastMessageCache)
deriving DecidableEq, Repr

/-- `HashMap::get` on the association-list model. -/
def assocGet (cache : List (String × LastMessageCache)) (k : String) :
    Option LastMessageCache :=
  (cache.find? (fun p => p.1 == k)).map (·.2)

/-- `HashMap::insert` on the association-list model (replaces any existing
entry for the key). -/
def assocInsert (cache : List (String × LastMessageCache)) (k : String)
    (v : LastMessageCache) : List (String × LastMessageCache) :=
  (k, v) :: cache.filter (fun p => p.1 != k)

/-- The per-rule notification effects, lines 432-470 / 634-673 of
`service.rs`: focus the chat when `focus_chat` is set, then play the sound
when one is configured and the path is non-empty. -/
def ruleEffects (chat_id : String) (a : NotificationAutomation) : List Event :=
  (if a.focus_chat then [Event.focusChat chat_id] else []) ++
    (match a.notification_sound with
     | some sound_path => if sound_path.isEmpty then [] else [Event.playSound sound_path]
     | none => [])

/-- Lines 427-430 of `service.rs`: the rules whose effects fire for a new
message in `chat_id`, computed from the configuration read from shared
state at fire time. -/
def immediateFiringRules (config : Config) (chat_id : String) :
    List NotificationAutomation :=
  config.notifications.automations.filter (fun a =>
    a.enabled && a.automation_type == AutomationType.Immediate &&
      a.chat_ids.contains chat_id)

/-- One chat's step of the immediate watcher loop body
(`start_immediate_watcher_static`, lines 405-492): `messages` is the
successful `list_messages` payload, `config` the value read from
`app_state.get_config()` at fire time.  Returns the updated shared cache
and the emitted events in program order. -/
def immediate_watcher_chat_step (config : Config)
    (cache : List (String × LastMessageCache)) (chat_id : String)
    (messages : List Message) :
    List (String × LastMessageCache) × List Event :=
  match messages.head? with
  | none => (cache, [])
  | some latest_message =>
    match assocGet cache chat_id with
    | some cached =>
      if cached.sort_key < latest_message.sort_key then
        (assocInsert cache chat_id
          ⟨latest_message.id, latest_message.sort_key, none⟩,
         Event.updateCache chat_id latest_message.sort_key ::
          (immediateFiringRules config chat_id).flatMap (ruleEffects chat_id))
      else (cache, [])
    | none =>
      (assocInsert cache chat_id
        ⟨latest_message.id, latest_message.sort_key, none⟩, [])

/-- Lines 552-564 of `service.rs`: detect whether the newest message is
new, seeding the loop watcher's private cache on first observation (the
first observation is never treated as new). -/
def loop_detect_new (last_messages : List (String × LastMessageCache))
    (chat_id : String) (latest_message : Message) :
    List (String × LastMessageCache) × Bool :=
  match assocGet last_messages chat_id with
  | some cached => (last_messages, decide (cached.sort_key < latest_message.sort_key))
  | none =>
    (assocInsert last_messages chat_id
      ⟨latest_message.id, latest_message.sort_key, none⟩, false)

/-- Lines 566-581 of `service.rs`: on a new message, update the cache and
(under `ForATime`) open the notify window at the current time. -/
def loop_update_on_new (lc : LoopConfig)
    (cache1 : List (String × LastMessageCache)) (chat_id : String)
    (latest_message : Message) (is_new_message : Bool) (now : Nat) :
    List (String × LastMessageCache) :=
  if is_new_message then
    let start_time := if lc.until_ == LoopUntil.ForATime then some now else none
    assocInsert cache1 chat_id
      ⟨latest_message.id, latest_message.sort_key, start_time⟩
  else cache1

/-- Lines 585-628 of `service.rs`: the `should_notify` decision (and, for
`ForATime`, the window-clearing write-back on expiry). -/
def loop_should_notify (lc : LoopConfig)
    (cache2 : List (String × LastMessageCache)) (chat_id : String)
    (latest_message : Message) (chat : Chat) (now : Nat) :
    List (String × LastMessageCache) × Bool :=
  match lc.until_ with
  | LoopUntil.MessageSeen => (cache2, decide (chat.unread_count > 0))
  | LoopUntil.Answer =>
    match latest_message.is_sender with
    | some is_sender => (cache2, !is_sender)
    | none => (cache2, decide (chat.unread_count > 0))
  | LoopUntil.ForATime =>
    match assocGet cache2 chat_id with
    | some cached =>
      match cached.notification_start_time with
      | some start_time =>
        match lc.time with
        | some time_limit =>
          if now - start_time ≥ time_limit then
            (assocInsert cache2 chat_id
              ⟨cached.message_id, cached.sort_key, none⟩, false)
          else (cache2, true)
        | none => (cache2, false)
      | none => (cache2, false)
    | none => (cache2, false)

/-- One chat's step of the loop watcher body
(`start_loop_automation_static`, lines 527-685): `messages` and `chats`
are the successful collaborator payloads, `now` the current instant.
Returns the watcher's private cache, `some should_notify` when the
decision was evaluated (newest message present and chat found in
`list_chats`, `none` otherwise), and the emitted effects. -/
def loop_automation_chat_step (a : NotificationAutomation) (lc : LoopConfig)
    (last_messages : List (String × LastMessageCache)) (chat_id : String)
    (messages : List Message) (chats : List Chat) (now : Nat) :
    List (String × LastMessageCache) × Option Bool × List Event :=
  match messages.head? with
  | none => (last_messages, none, [])
  | some latest_message =>
    let r1 := loop_detect_new last_messages chat_id latest_message
    let cache2 := loop_update_on_new lc r1.1 chat_id latest_message r1.2 now
    match chats.find? (fun c => c.id == chat_id) with
    | none => (cache2, none, [])
    | some chat =>
      let r3 := loop_should_notify lc cache2 chat_id latest_message chat now
      (r3.1, some r3.2, if r3.2 then ruleEffects chat_id a else [])

/-- Lines 512-518 of `service.rs`: the body spawned by
`start_loop_automation_static` first inspects `loop_config`; with none it
reports a warning and returns immediately (never polling or notifying),
otherwise it runs the polling loop with that configuration. -/
inductive LoopWatcherInit where
  | missingConfigWarning (automation_id : String)
  | runsWith (lc : LoopConfig)
deriving DecidableEq, Repr

/-- The `loop_config` check at the top of the spawned loop task. -/
def loop_automation_init (a : NotificationAutomation) : LoopWatcherInit :=
  match a.loop_config with
  | some lc => LoopWatcherInit.runsWith lc
  | none => LoopWatcherInit.missingConfigWarning a.id

/-! ## Reconciliation (`handle_config_reload`) -/

/-- The reserved id of the shared immediate watcher task. -/
def immediateWatcherId : String := "__immediate_watcher__"

/-- Line 184 of `service.rs`: the enabled automations of a configuration,
in configuration order. -/
def enabledAutomations (c : Config) : List NotificationAutomation :=
  c.notifications.automations.filter (·.enabled)

/-- `new_automations.get(id)`: the `HashMap` collected at lines 180-186 maps
each id to the *last* enabled automation bearing it (later inserts win). -/
def newAutomationsGet (c : Config) (id : String) : Option NotificationAutomation :=
  (enabledAutomations c).reverse.find? (fun a => a.id == id)

/-- `new_automation_ids` (line 188): the key set of that map.  `HashMap`
iteration order is unspecified in Rust; the model fixes the order by
deduplicating the enabled ids (none of the reconciliation decisions below
depends on this order, only on membership). -/
def new_automation_ids (c : Config) : List String :=
  ((enabledAutomations c).map (·.id)).dedup

/-- `Vec::retain` with `handle.abort()` on each dropped entry (lines
212-224 etc.): keeps the tasks whose id is not in `ids` and emits one
abort event per removed task, in vector order. -/
def abortMatching (tasks : List AutomationTask) (ids : List String) :
    List AutomationTask × List Event :=
  (tasks.filter (fun t => !ids.contains t.automation_id),
   (tasks.filter (fun t => ids.contains t.automation_id)).map
     (fun t => Event.abortTask t.automation_id))

/-- The task (none or one) spawned for one id of `to_restart`
(lines 243-261): a fresh loop task for a Loop automation, nothing for an
Immediate one (deferred to the immediate-watcher handling). -/
def restartSpawnOfId (c : Config) (id : String) : List AutomationTask :=
  match newAutomationsGet c id with
  | some a =>
    match a.automation_type with
    | AutomationType.Loop => [⟨id, TaskHandle.loopHandle a⟩]
    | AutomationType.Immediate => []
  | none => []

/-- The spawn-loop over `to_restart` (lines 243-261), returning spawned
tasks and events in iteration order. -/
def restartSpawns (c : Config) (ids : List String) :
    List AutomationTask × List Event :=
  (ids.flatMap (restartSpawnOfId c),
   (ids.flatMap (restartSpawnOfId c)).map (fun t =>
     match t.handle with
     | TaskHandle.loopHandle a => Event.spawnLoopTask a
     | TaskHandle.immediateHandle l => Event.spawnImmediateTask l))

/-- The chat ids one id of `to_start` contributes to
`immediate_chat_ids` (line 287): the rule's `chat_ids` when it is an
enabled Immediate automation, nothing otherwise. -/
def startChatIdsOfId (c : Config) (id : String) : List String :=
  match newAutomationsGet c id with
  | some a =>
    match a.automation_type with
    | AutomationType.Loop => []
    | AutomationType.Immediate => a.chat_ids
  | none => []

/-- The for-loop over `to_start` (lines 272-291): loop tasks spawned and
the collected `immediate_chat_ids`, both in iteration order. -/
def startSpawns (c : Config) (ids : List String) :
    List AutomationTask × List String × List Event :=
  (ids.flatMap (restartSpawnOfId c),
   ids.flatMap (startChatIdsOfId c),
   (ids.flatMap (restartSpawnOfId c)).map (fun t =>
     match t.handle with
     | TaskHandle.loopHandle a => Event.spawnLoopTask a
     | TaskHandle.immediateHandle l => Event.spawnImmediateTask l))

/-- `Vec::dedup`: removes consecutive duplicates. -/
def dedupAdj : List String → List String
  | [] => []
  | [a] => [a]
  | a :: b :: rest => if a == b then dedupAdj (b :: rest) else a :: dedupAdj (b :: rest)

/-- `immediate_chat_ids.sort(); immediate_chat_ids.dedup();`
(lines 295-296 and 339-340). -/
def sortDedup (l : List String) : List String :=
  dedupAdj (l.insertionSort (· ≤ ·))

/-- Line 299 / 343: is an immediate watcher among the tasks? -/
def hasImmediate (tasks : List AutomationTask) : Bool :=
  tasks.any (fun t => t.automation_id == immediateWatcherId)

/-- Lines 329-335: union of `chat_ids` over all enabled Immediate
automations of the new configuration. -/
def all_immediate_chat_ids (c : Config) : List String :=
  (c.notifications.automations.filter (fun a =>
    a.enabled && a.automation_type == AutomationType.Immediate)).flatMap (·.chat_ids)

/-- Lines 372-378: union of `chat_ids` over all enabled automations. -/
def all_tracked_chat_ids (c : Config) : List String :=
  (enabledAutomations c).flatMap (·.chat_ids)

/-- The running tasks' ids (`old_automation_ids`, lines 173-177). -/
def taskIds (tasks : List AutomationTask) : List String :=
  tasks.map (·.automation_id)

/-- `to_stop` (lines 191-195): running ids absent from the new key set. -/
def to_stop_ids (st : ServiceState) (c : Config) : List String :=
  (taskIds st.automation_tasks).filter
    (fun id => !(new_automation_ids c).contains id)

/-- `to_start` (lines 197-201): new ids not currently running. -/
def to_start_ids (st : ServiceState) (c : Config) : List String :=
  (new_automation_ids c).filter
    (fun id => !(taskIds st.automation_tasks).contains id)

/-- `to_restart` (lines 205-209): new ids currently running (conservatively
all survivors are restarted). -/
def to_restart_ids (st : ServiceState) (c : Config) : List String :=
  (new_automation_ids c).filter
    (fun id => (taskIds st.automation_tasks).contains id)

/-- Lines 212-224: stop removed/disabled automations. -/
def stopPhase (tasks : List AutomationTask) (to_stop : List String) :
    List AutomationTask × List Event :=
  if to_stop.isEmpty then (tasks, [])
  else abortMatching tasks to_stop

/-- Lines 227-262: restart modified automations (abort the old versions,
spawn the new ones). -/
def restartPhase (c : Config) (tasks : List AutomationTask)
    (to_restart : List String) : List AutomationTask × List Event :=
  if to_restart.isEmpty then (tasks, [])
  else
    ((abortMatching tasks to_restart).1 ++ (restartSpawns c to_restart).1,
     (abortMatching tasks to_restart).2 ++ (restartSpawns c to_restart).2)

/-- Lines 265-326: start new automations, and start (or cancel-and-replace)
the immediate watcher when the newly started rules contribute chat ids. -/
def startPhase (c : Config) (tasks : List AutomationTask)
    (to_start : List String) : List AutomationTask × List Event :=
  if to_start.isEmpty then (tasks, [])
  else
    let tasksS := tasks ++ (startSpawns c to_start).1
    if (startSpawns c to_start).2.1.isEmpty then (tasksS, (startSpawns c to_start).2.2)
    else
      let ids := sortDedup (startSpawns c to_start).2.1
      let w :=
        if hasImmediate tasksS then abortMatching tasksS [immediateWatcherId]
        else (tasksS, [])
      (w.1 ++ [⟨immediateWatcherId, TaskHandle.immediateHandle ids⟩],
       (startSpawns c to_start).2.2 ++ w.2 ++ [Event.spawnImmediateTask ids])

/-- Lines 328-369: restart the immediate watcher, scoped to the union over
all enabled Immediate rules, when a restarted automation is Immediate and
a watcher is present. -/
def secondImmediatePhase (c : Config) (tasks : List AutomationTask)
    (to_restart : List String) : List AutomationTask × List Event :=
  if (all_immediate_chat_ids c).isEmpty then (tasks, [])
  else
    let ids := sortDedup (all_immediate_chat_ids c)
    if hasImmediate tasks && to_restart.any (fun id =>
        ((newAutomationsGet c id).map
          (fun a => a.automation_type == AutomationType.Immediate)).getD false)
    then
      ((abortMatching tasks [immediateWatcherId]).1 ++
        [⟨immediateWatcherId, TaskHandle.immediateHandle ids⟩],
       (abortMatching tasks [immediateWatcherId]).2 ++
        [Event.spawnImmediateTask ids])
    else (tasks, [])

/-- `NotificationService::handle_config_reload` (lines 161-382), as a pure
state transformer emitting the abort/spawn events in program order: the
sequential composition of the four phases above followed by the cache
prune of lines 371-381.  The `app_state.update_config` call is assumed to
succeed (its failure returns before any watcher operation). -/
def handle_config_reload (st : ServiceState) (new_config : Config) :
    ServiceState × List Event :=
  let s1 := stopPhase st.automation_tasks (to_stop_ids st new_config)
  let s2 := restartPhase new_config s1.1 (to_restart_ids st new_config)
  let s3 := startPhase new_config s2.1 (to_start_ids st new_config)
  let s4 := secondImmediatePhase new_config s3.1 (to_restart_ids st new_config)
  (⟨s4.1, st.last_messages.filter (fun p =>
      (all_tracked_chat_ids new_config).contains p.1)⟩,
   s1.2 ++ s2.2 ++ s3.2 ++ s4.2)

/-- `NotificationService::run_service` (lines 134-159): the receive loop
over the reload channel, consuming a list of `rx.recv()` results.  `none`
is channel closure: the loop breaks, touching no task (the running
watchers are aborted only by `Drop for NotificationService`, a separate
path not invoked here). -/
def run_service (st : ServiceState) : List (Option Config) → ServiceState × List Event
  | [] => (st, [])
  | none :: _ => (st, [])
  | some c :: rest =>
    let r := handle_config_reload st c
    let r2 := run_service r.1 rest
    (r2.1, r.2 ++ r2.2)

/-- `Drop for NotificationService` (lines 93-102): aborts every running
task.  Recorded to document that cancellation-on-teardown is a distinct
code path from channel closure. -/
def drop_service (st : ServiceState) : List Event :=
  st.automation_tasks.map (fun t => Event.abortTask t.automation_id)

/-! ## Concrete data for witnesses and counterexamples -/

/-- A valid enabled Loop rule (policy `MessageSeen`) on chat `c1`. -/
def exLoopRule : NotificationAutomation :=
  ⟨"r1", "loop rule", ["c1"], AutomationType.Loop, some "beep.wav", true,
   some ⟨LoopUntil.MessageSeen, none, 3000⟩, true, none⟩

def exCfgLoop : Config := ⟨⟨"", ""⟩, ⟨[exLoopRule]⟩⟩

/-- An enabled Immediate rule on chats `c2`, `c1`. -/
def exImmRule : NotificationAutomation :=
  ⟨"B", "imm rule", ["c2", "c1"], AutomationType.Immediate, some "ding.wav",
   true, none, true, none⟩

def exCfgImm : Config := ⟨⟨"", ""⟩, ⟨[exImmRule]⟩⟩

/-- Rule `X` as a Loop rule, and the same id re-declared as an Immediate
rule (a kind change across reloads, identity preserved by `id`). -/
def exFlipLoop : NotificationAutomation :=
  ⟨"X", "x", ["c1"], AutomationType.Loop, none, false,
   some ⟨LoopUntil.MessageSeen, none, 3000⟩, true, none⟩

def exFlipImm : NotificationAutomation :=
  ⟨"X", "x", ["c1"], AutomationType.Immediate, none, true, none, true, none⟩

def exCfgFlip1 : Config := ⟨⟨"", ""⟩, ⟨[exFlipLoop]⟩⟩

def exCfgFlip2 : Config := ⟨⟨"", ""⟩, ⟨[exFlipImm]⟩⟩

/-- A malformed rule: `kind = Loop` with `loop_config = None`. -/
def exMalformedLoop : NotificationAutomation :=
  ⟨"m", "malformed", ["c3"], AutomationType.Loop, none, false, none, true, none⟩

/-- A malformed rule next to a valid one. -/
def exCfgMalformed : Config := ⟨⟨"", ""⟩, ⟨[exMalformedLoop, exLoopRule]⟩⟩

def exMsg : Message := ⟨"m1", "0005", some false⟩

def exMsg2 : Message := ⟨"m2", "0007", some false⟩

def exChat : Chat := ⟨"c1", 3⟩

/-- A `ForATime` loop policy with a 1000 ms limit. -/
def exForATime : LoopConfig := ⟨LoopUntil.ForATime, some 1000, 3000⟩

/-- An `Answer` loop policy. -/
def exAnswerCfg : LoopConfig := ⟨LoopUntil.Answer, none, 3000⟩

/-! ## Basic lemmas about the cache model and the watcher steps -/

theorem assocGet_insert_self (cache : List (String × LastMessageCache))
    (k : String) (v : LastMessageCache) :
    assocGet (assocInsert cache k v) k = some v := by
  simp [assocGet, assocInsert]

theorem loop_step_unfold (a : NotificationAutomation) (lc : LoopConfig)
    (cache : List (String × LastMessageCache)) (chat_id : String)
    (messages : List Message) (chats : List Chat) (now : Nat)
    (msg : Message) (chat : Chat)
    (hmsg : messages.head? = some msg)
    (hchat : chats.find? (fun c => c.id == chat_id) = some chat) :
    loop_automation_chat_step a lc cache chat_id messages chats now =
      ((loop_should_notify lc
          (loop_update_on_new lc (loop_detect_new cache chat_id msg).1 chat_id
            msg (loop_detect_new cache chat_id msg).2 now) chat_id msg chat now).1,
       some (loop_should_notify lc
          (loop_update_on_new lc (loop_detect_new cache chat_id msg).1 chat_id
            msg (loop_detect_new cache chat_id msg).2 now) chat_id msg chat now).2,
       if (loop_should_notify lc
          (loop_update_on_new lc (loop_detect_new cache chat_id msg).1 chat_id
            msg (loop_detect_new cache chat_id msg).2 now) chat_id msg chat now).2
       then ruleEffects chat_id a else []) := by
  simp only [loop_automation_chat_step, hmsg, hchat]

theorem immediate_step_new (config : Config)
    (cache : List (String × LastMessageCache)) (chat_id : String)
    (messages : List Message) (msg : Message) (cached : LastMessageCache)
    (hmsg : messages.head? = some msg)
    (hget : assocGet cache chat_id = some cached)
    (hlt : cached.sort_key < msg.sort_key) :
    immediate_watcher_chat_step config cache chat_id messages =
      (assocInsert cache chat_id ⟨msg.id, msg.sort_key, none⟩,
       Event.updateCache chat_id msg.sort_key ::
        (immediateFiringRules config chat_id).flatMap (ruleEffects chat_id)) := by
  simp only [immediate_watcher_chat_step, hmsg, hget, if_pos hlt]

theorem immediate_step_stale (config : Config)
    (cache : List (String × LastMessageCache)) (chat_id : String)
    (messages : List Message) (msg : Message) (cached : LastMessageCache)
    (hmsg : messages.head? = some msg)
    (hget : assocGet cache chat_id = some cached)
    (hlt : ¬ cached.sort_key < msg.sort_key) :
    immediate_watcher_chat_step config cache chat_id messages = (cache, []) := by
  simp only [immediate_watcher_chat_step, hmsg, hget, if_neg hlt]

theorem immediate_step_first (config : Config)
    (cache : List (String × LastMessageCache)) (chat_id : String)
    (messages : List Message) (msg : Message)
    (hmsg : messages.head? = some msg)
    (hget : assocGet cache chat_id = none) :
    immediate_watcher_chat_step config cache chat_id messages =
      (assocInsert cache chat_id ⟨msg.id, msg.sort_key, none⟩, []) := by
  simp only [immediate_watcher_chat_step, hmsg, hget]

theorem loop_cache_after_update_first (lc : LoopConfig)
    (cache : List (String × LastMessageCache)) (chat_id : String)
    (msg : Message) (now : Nat)
    (h0 : assocGet cache chat_id = none) :
    loop_update_on_new lc (loop_detect_new cache chat_id msg).1 chat_id msg
        (loop_detect_new cache chat_id msg).2 now =
      assocInsert cache chat_id ⟨msg.id, msg.sort_key, none⟩ := by
  simp [loop_detect_new, h0, loop_update_on_new]

theorem loop_cache_after_update_new (lc : LoopConfig)
    (cache : List (String × LastMessageCache)) (chat_id : String)
    (msg : Message) (now : Nat) (c0 : LastMessageCache)
    (h0 : assocGet cache chat_id = some c0)
    (hnew : c0.sort_key < msg.sort_key)
    (huntil : lc.until_ = LoopUntil.ForATime) :
    loop_update_on_new lc (loop_detect_new cache chat_id msg).1 chat_id msg
        (loop_detect_new cache chat_id msg).2 now =
      assocInsert cache chat_id ⟨msg.id, msg.sort_key, some now⟩ := by
  simp [loop_detect_new, h0, loop_update_on_new, hnew, huntil]

theorem loop_cache_after_update_stale (lc : LoopConfig)
    (cache : List (String × LastMessageCache)) (chat_id : String)
    (msg : Message) (now : Nat) (c0 : LastMessageCache)
    (h0 : assocGet cache chat_id = some c0)
    (hnew : ¬ c0.sort_key < msg.sort_key) :
    loop_update_on_new lc (loop_detect_new cache chat_id msg).1 chat_id msg
        (loop_detect_new cache chat_id msg).2 now = cache := by
  simp [loop_detect_new, h0, loop_update_on_new, hnew]

theorem lsn_forATime (lc : LoopConfig) (c2 : List (String × LastMessageCache))
    (chat_id : String) (msg : Message) (chat : Chat) (now : Nat)
    (e : LastMessageCache) (T : Nat)
    (huntil : lc.until_ = LoopUntil.ForATime) (htime : lc.time = some T)
    (hget : assocGet c2 chat_id = some e) :
    loop_should_notify lc c2 chat_id msg chat now =
      (match e.notification_start_time with
       | some s =>
         if now - s ≥ T then
           (assocInsert c2 chat_id ⟨e.message_id, e.sort_key, none⟩, false)
         else (c2, true)
       | none => (c2, false)) := by
  simp only [loop_should_notify, huntil, hget, htime]

/-! ## Claim theorems -/

/-- C7: for a Loop rule with policy `Answer`, `should_notify` is true iff
the newest message's `is_sender` attribution says it was not authored by
the local user; when the attribution is absent it is true iff the chat's
unread count is positive. -/
theorem answer_policy_notify (a : NotificationAutomation) (lc : LoopConfig)
    (cache : List (String × LastMessageCache)) (chat_id : String)
    (messages : List Message) (chats : List Chat) (now : Nat)
    (msg : Message) (chat : Chat)
    (huntil : lc.until_ = LoopUntil.Answer)
    (hmsg : messages.head? = some msg)
    (hchat : chats.find? (fun c => c.id == chat_id) = some chat) :
    (loop_automation_chat_step a lc cache chat_id messages chats now).2.1 =
      some (match msg.is_sender with
            | some is_sender => !is_sender
            | none => decide (chat.unread_count > 0)) := by
  rw [loop_step_unfold a lc cache chat_id messages chats now msg chat hmsg hchat]
  simp only [loop_should_notify, huntil]
  cases msg.is_sender <;> rfl

/-- Witness for `answer_policy_notify`: a concrete evaluation where the
newest message is not from the local user, so notification continues. -/
theorem answer_policy_notify_witness :
    (loop_automation_chat_step exLoopRule exAnswerCfg [] "c1" [exMsg] [exChat] 0).2.1 =
      some true :=
  answer_policy_notify exLoopRule exAnswerCfg [] "c1" [exMsg] [exChat] 0 exMsg
    exChat rfl rfl (by decide)

theorem playSound_empty_not_mem_ruleEffects (chat_id : String)
    (a : NotificationAutomation) :
    Event.playSound "" ∉ ruleEffects chat_id a := by
  rw [ruleEffects]
  intro h
  rcases List.mem_append.mp h with h1 | h1
  · split at h1 <;> simp at h1
  · rcases hs : a.notification_sound with _ | p
    · simp only [hs] at h1
      simp at h1
    · simp only [hs] at h1
      by_cases he : p.isEmpty = true
      · rw [if_pos he] at h1
        simp at h1
      · rw [if_neg he] at h1
        simp at h1
        subst h1
        exact he rfl

/-- C4: channel closure on the reload stream is not a shutdown signal:
after any sequence of reloads, receiving `none` (the closed channel) —
whatever would come after — leaves the service exactly as the reloads
alone left it: the state, i.e. every running watcher, is unchanged and no
further event (in particular no abort) is emitted; and the state after
the reloads is the fold of the reconciliations. -/
theorem channel_closure_keeps_watchers (st : ServiceState)
    (msgs : List Config) (rest : List (Option Config)) :
    run_service st (msgs.map some ++ none :: rest) =
      run_service st (msgs.map some) ∧
    (run_service st (msgs.map some)).1 =
      msgs.foldl (fun s c => (handle_config_reload s c).1) st := by
  induction msgs generalizing st with
  | nil => exact ⟨rfl, rfl⟩
  | cons c cs ih =>
    constructor
    · simp only [List.map_cons, List.cons_append, run_service, List.append_eq]
      rw [(ih (handle_config_reload st c).1).1]
    · simp only [List.map_cons, run_service, List.foldl_cons]
      rw [(ih (handle_config_reload st c).1).2]

/-- C9: an empty configured sound path is treated as no sound at all:
no step of either the loop watcher or the immediate watcher ever emits a
`playSound` event carrying the empty path. -/
theorem empty_sound_path_never_plays (config : Config)
    (a : NotificationAutomation) (lc : LoopConfig)
    (cache : List (String × LastMessageCache)) (chat_id : String)
    (messages : List Message) (chats : List Chat) (now : Nat) :
    Event.playSound "" ∉
      (loop_automation_chat_step a lc cache chat_id messages chats now).2.2 ∧
    Event.playSound "" ∉
      (immediate_watcher_chat_step config cache chat_id messages).2 := by
  constructor
  · simp only [loop_automation_chat_step]
    split
    · simp
    · split
      · simp
      · dsimp only
        split
        · exact playSound_empty_not_mem_ruleEffects chat_id a
        · simp
  · simp only [immediate_watcher_chat_step]
    split
    · simp
    · split
      · split
        · intro h
          rcases List.mem_cons.mp h with h | h
          · exact Event.noConfusion h
          · rcases List.mem_flatMap.mp h with ⟨r, _, hr⟩
            exact playSound_empty_not_mem_ruleEffects chat_id r hr
        · simp
      · simp

/-- C10: the rules firing for a new message in the immediate watcher are
computed from the configuration read from shared state at fire time: the
emitted events are exactly the cache update followed by the effects of
`immediateFiringRules config chat_id`, and any rule that is disabled — or
whose `chat_ids` no longer contain the chat — at fire time is not among
the firing rules, regardless of the fixed chat list the watcher was
spawned with. -/
theorem immediate_fire_uses_fire_time_config (config : Config)
    (cache : List (String × LastMessageCache)) (chat_id : String)
    (messages : List Message) (msg : Message) (cached : LastMessageCache)
    (a : NotificationAutomation)
    (hmsg : messages.head? = some msg)
    (hget : assocGet cache chat_id = some cached)
    (hlt : cached.sort_key < msg.sort_key)
    (ha : a.enabled = false ∨ chat_id ∉ a.chat_ids) :
    (immediate_watcher_chat_step config cache chat_id messages).2 =
      Event.updateCache chat_id msg.sort_key ::
        (immediateFiringRules config chat_id).flatMap (ruleEffects chat_id) ∧
    a ∉ immediateFiringRules config chat_id := by
  constructor
  · rw [immediate_step_new config cache chat_id messages msg cached hmsg hget hlt]
  · intro hmem
    have hp := List.of_mem_filter hmem
    simp only [Bool.and_eq_true, beq_iff_eq] at hp
    rcases ha with ha | ha
    · rw [ha] at hp
      simp at hp
    · exact ha (List.elem_iff.mp hp.2)

/-- Witness for `immediate_fire_uses_fire_time_config`: rule `D` covers
chat `c1` but is disabled in the configuration read at fire time, so it is
not among the firing rules. -/
theorem immediate_fire_uses_fire_time_config_witness :
    (immediate_watcher_chat_step
        ⟨⟨"", ""⟩, ⟨[exImmRule, ⟨"D", "d", ["c1"], AutomationType.Immediate,
          some "ding.wav", true, none, false, none⟩]⟩⟩
        [("c1", ⟨"m1", "0005", none⟩)] "c1" [exMsg2]).2 =
      Event.updateCache "c1" "0007" ::
        (immediateFiringRules ⟨⟨"", ""⟩, ⟨[exImmRule, ⟨"D", "d", ["c1"],
          AutomationType.Immediate, some "ding.wav", true, none, false, none⟩]⟩⟩
          "c1").flatMap (ruleEffects "c1") ∧
    (⟨"D", "d", ["c1"], AutomationType.Immediate, some "ding.wav", true, none,
        false, none⟩ : NotificationAutomation) ∉
      immediateFiringRules ⟨⟨"", ""⟩, ⟨[exImmRule, ⟨"D", "d", ["c1"],
        AutomationType.Immediate, some "ding.wav", true, none, false, none⟩]⟩⟩
        "c1" :=
  immediate_fire_uses_fire_time_config
    ⟨⟨"", ""⟩, ⟨[exImmRule, ⟨"D", "d", ["c1"], AutomationType.Immediate,
      some "ding.wav", true, none, false, none⟩]⟩⟩
    [("c1", ⟨"m1", "0005", none⟩)] "c1" [exMsg2] exMsg2 ⟨"m1", "0005", none⟩
    ⟨"D", "d", ["c1"], AutomationType.Immediate, some "ding.wav", true, none,
      false, none⟩
    rfl rfl (by rw [String.lt_iff_toList_lt]; decide) (Or.inl rfl)

/-! ## Reconciliation lemmas -/

theorem find?_eq_some_of_unique {α : Type} (p : α → Bool) (l : List α) (x : α)
    (hx : x ∈ l) (hp : p x = true) (huniq : ∀ y ∈ l, p y = true → y = x) :
    l.find? p = some x := by
  induction l with
  | nil => cases hx
  | cons a l ih =>
    by_cases hpa : p a = true
    · have ha : a = x := huniq a (List.mem_cons_self a l) hpa
      subst ha
      simp [List.find?_cons_of_pos _ hpa]
    · have hx' : x ∈ l := by
        rcases List.mem_cons.mp hx with h | h
        · exact absurd (h ▸ hp) hpa
        · exact h
      rw [List.find?_cons_of_neg _ hpa]
      exact ih hx' (fun y hy hpy => huniq y (List.mem_cons_of_mem a hy) hpy)

theorem mem_dedupAdj : ∀ (l : List String) (x : String),
    x ∈ dedupAdj l ↔ x ∈ l
  | [], x => by simp [dedupAdj]
  | [a], x => by simp [dedupAdj]
  | a :: b :: rest, x => by
    by_cases hab : a == b
    · have hab' : a = b := by simpa using hab
      subst hab'
      rw [dedupAdj, if_pos (by simp)]
      rw [mem_dedupAdj (a :: rest) x]
      simp only [List.mem_cons]
      tauto
    · rw [dedupAdj, if_neg hab]
      simp only [List.mem_cons, mem_dedupAdj (b :: rest) x]

theorem mem_sortDedup (l : List String) (x : String) :
    x ∈ sortDedup l ↔ x ∈ l := by
  rw [sortDedup, mem_dedupAdj]
  exact List.mem_insertionSort _

theorem flatMap_filter_of_nil {α β : Type} (l : List α) (p : α → Bool)
    (f : α → List β) (h : ∀ x ∈ l, p x = false → f x = []) :
    (l.filter p).flatMap f = l.flatMap f := by
  induction l with
  | nil => rfl
  | cons a l ih =>
    have ih' := ih (fun x hx hpx => h x (List.mem_cons_of_mem a hx) hpx)
    by_cases hpa : p a = true
    · rw [List.filter_cons_of_pos hpa, List.flatMap_cons, List.flatMap_cons, ih']
    · have hpa' : p a = false := Bool.not_eq_true _ ▸ hpa
      rw [List.filter_cons_of_neg (by simp [hpa']), List.flatMap_cons,
        h a (List.mem_cons_self a l) hpa', List.nil_append, ih']

theorem flatMap_congr_mem {α β : Type} (l : List α) (f g : α → List β)
    (h : ∀ x ∈ l, f x = g x) : l.flatMap f = l.flatMap g := by
  induction l with
  | nil => rfl
  | cons a l ih =>
    rw [List.flatMap_cons, List.flatMap_cons, h a (List.mem_cons_self a l),
      ih (fun x hx => h x (List.mem_cons_of_mem a hx))]

theorem flatMap_if_filter {α β : Type} (l : List α) (p : α → Bool)
    (f : α → List β) :
    l.flatMap (fun a => if p a then f a else []) = (l.filter p).flatMap f := by
  induction l with
  | nil => rfl
  | cons a l ih =>
    by_cases hpa : p a = true
    · rw [List.flatMap_cons, List.filter_cons_of_pos hpa, List.flatMap_cons,
        if_pos hpa, ih]
    · rw [List.flatMap_cons, List.filter_cons_of_neg (by simp [Bool.not_eq_true _ ▸ hpa]),
        if_neg hpa, List.nil_append, ih]

theorem abortMatching_nil (tasks : List AutomationTask) :
    abortMatching tasks [] = (tasks, []) := by
  simp [abortMatching]

theorem stopPhase_eq (tasks : List AutomationTask) (ids : List String) :
    stopPhase tasks ids = abortMatching tasks ids := by
  by_cases h : ids.isEmpty = true
  · have h' : ids = [] := List.isEmpty_iff.mp h
    subst h'
    simp [stopPhase, abortMatching_nil]
  · rw [stopPhase, if_neg h]

theorem restartPhase_eq (c : Config) (tasks : List AutomationTask)
    (ids : List String) :
    restartPhase c tasks ids =
      ((abortMatching tasks ids).1 ++ (restartSpawns c ids).1,
       (abortMatching tasks ids).2 ++ (restartSpawns c ids).2) := by
  by_cases h : ids.isEmpty = true
  · have h' : ids = [] := List.isEmpty_iff.mp h
    subst h'
    simp [restartPhase, abortMatching_nil, restartSpawns]
  · rw [restartPhase, if_neg h]

theorem stop_restart_removes_all (tasks : List AutomationTask)
    (new_ids : List String) :
    (abortMatching (abortMatching tasks
        ((taskIds tasks).filter (fun id => !new_ids.contains id))).1
      (new_ids.filter (fun id => (taskIds tasks).contains id))).1 = [] := by
  rw [abortMatching, abortMatching]
  dsimp only
  rw [List.filter_filter]
  apply List.filter_eq_nil_iff.mpr
  intro t ht hpred
  have htid : t.automation_id ∈ taskIds tasks :=
    List.mem_map_of_mem (·.automation_id) ht
  have hkR := (Bool.and_eq_true .. |>.mp hpred).1
  have hkS := (Bool.and_eq_true .. |>.mp hpred).2
  by_cases hm : t.automation_id ∈ new_ids
  · have hkR' : t.automation_id ∉ new_ids ∨ t.automation_id ∉ taskIds tasks := by
      simpa using hkR
    rcases hkR' with h | h
    · exact h hm
    · exact h htid
  · have hkS' : t.automation_id ∉ taskIds tasks ∨ t.automation_id ∈ new_ids := by
      simpa using hkS
    rcases hkS' with h | h
    · exact h htid
    · exact hm h

theorem tasks_after_stop_restart (st : ServiceState) (c : Config) :
    (restartPhase c (stopPhase st.automation_tasks (to_stop_ids st c)).1
        (to_restart_ids st c)).1 =
      (to_restart_ids st c).flatMap (restartSpawnOfId c) := by
  rw [stopPhase_eq, restartPhase_eq]
  dsimp only
  rw [to_stop_ids, to_restart_ids, stop_restart_removes_all, List.nil_append]
  rfl

theorem newAutomationsGet_eq_some {c : Config} {id : String}
    {a : NotificationAutomation} (h : newAutomationsGet c id = some a) :
    a ∈ enabledAutomations c ∧ a.id = id := by
  rw [newAutomationsGet] at h
  refine ⟨List.mem_reverse.mp (List.mem_of_find?_eq_some h), ?_⟩
  have hp := List.find?_some h
  simpa using hp

theorem newAutomationsGet_self {c : Config}
    (h1 : ((enabledAutomations c).map (·.id)).Nodup)
    {a : NotificationAutomation} (ha : a ∈ enabledAutomations c) :
    newAutomationsGet c a.id = some a := by
  rw [newAutomationsGet]
  refine find?_eq_some_of_unique _ _ a (List.mem_reverse.mpr ha) (by simp) ?_
  intro y hy hpy
  have hy' : y ∈ enabledAutomations c := List.mem_reverse.mp hy
  have hid : y.id = a.id := by simpa using hpy
  exact List.inj_on_of_nodup_map h1 hy' ha hid

theorem new_automation_ids_eq (c : Config)
    (h1 : ((enabledAutomations c).map (·.id)).Nodup) :
    new_automation_ids c = (enabledAutomations c).map (·.id) := by
  rw [new_automation_ids]
  exact List.dedup_eq_self.mpr h1

theorem mem_new_automation_ids {c : Config} {id : String} :
    id ∈ new_automation_ids c ↔ id ∈ (enabledAutomations c).map (·.id) := by
  rw [new_automation_ids]
  exact List.mem_dedup

theorem hasImmediate_eq_false {tasks : List AutomationTask}
    (h : ∀ t ∈ tasks, t.automation_id ≠ immediateWatcherId) :
    hasImmediate tasks = false := by
  rw [hasImmediate, List.any_eq_false]
  intro t ht
  simpa using h t ht

theorem filter_filter_and {α : Type} (l : List α) (p q : α → Bool) :
    (l.filter p).filter q = l.filter (fun a => p a && q a) := by
  induction l with
  | nil => rfl
  | cons a l ih =>
    by_cases hp : p a = true
    · by_cases hq : q a = true
      · rw [List.filter_cons_of_pos hp, List.filter_cons_of_pos hq,
          List.filter_cons_of_pos (by simp [hp, hq]), ih]
      · rw [List.filter_cons_of_pos hp, List.filter_cons_of_neg (by simp [hq]),
          List.filter_cons_of_neg (by simp [hq]), ih]
    · rw [List.filter_cons_of_neg (by simp [hp]),
        List.filter_cons_of_neg (by simp [hp]), ih]

theorem startChatIdsOfId_eq_nil_of_mem_taskIds (st : ServiceState) (c : Config)
    (h3 : ∀ a ∈ enabledAutomations c,
      a.automation_type = AutomationType.Immediate →
      a.id ∉ taskIds st.automation_tasks)
    (id : String) (hid : id ∈ taskIds st.automation_tasks) :
    startChatIdsOfId c id = [] := by
  rcases hget : newAutomationsGet c id with _ | a
  · simp only [startChatIdsOfId, hget]
  · rcases newAutomationsGet_eq_some hget with ⟨ha, hid'⟩
    rcases hty : a.automation_type with _ | _
    · simp only [startChatIdsOfId, hget, hty]
    · exact absurd hid (hid' ▸ h3 a ha hty)

theorem startSpawns_chats (st : ServiceState) (c : Config)
    (h1 : ((enabledAutomations c).map (·.id)).Nodup)
    (h3 : ∀ a ∈ enabledAutomations c,
      a.automation_type = AutomationType.Immediate →
      a.id ∉ taskIds st.automation_tasks) :
    (startSpawns c (to_start_ids st c)).2.1 = all_immediate_chat_ids c := by
  show (to_start_ids st c).flatMap (startChatIdsOfId c) = _
  rw [to_start_ids]
  rw [flatMap_filter_of_nil _ _ _ (fun id _ hpid =>
    startChatIdsOfId_eq_nil_of_mem_taskIds st c h3 id (by simpa using hpid))]
  rw [new_automation_ids_eq c h1, List.flatMap_map]
  rw [flatMap_congr_mem _ _
    (fun a => if a.automation_type == AutomationType.Immediate then a.chat_ids else [])
    (fun a ha => by
      simp only [startChatIdsOfId, newAutomationsGet_self h1 ha]
      rcases hty : a.automation_type with _ | _
      · simp [hty]
      · simp [hty])]
  rw [flatMap_if_filter]
  rw [all_immediate_chat_ids, enabledAutomations, filter_filter_and]

theorem all_immediate_nil_of_no_imm (c : Config)
    (h : ∀ a ∈ enabledAutomations c,
      a.automation_type = AutomationType.Immediate → False) :
    all_immediate_chat_ids c = [] := by
  rw [all_immediate_chat_ids]
  have hf : c.notifications.automations.filter
      (fun a => a.enabled && a.automation_type == AutomationType.Immediate) = [] := by
    apply List.filter_eq_nil_iff.mpr
    intro a ha hpred
    have he := (Bool.and_eq_true .. |>.mp hpred).1
    have hi := (Bool.and_eq_true .. |>.mp hpred).2
    exact h a (List.mem_filter.mpr ⟨ha, he⟩) (by simpa using hi)
  rw [hf]
  rfl

theorem mem_flatMap_restartSpawnOfId {c : Config} {ids : List String}
    {t : AutomationTask} (ht : t ∈ ids.flatMap (restartSpawnOfId c)) :
    t.automation_id ∈ ids ∧ ∃ a, newAutomationsGet c t.automation_id = some a ∧
      a.automation_type = AutomationType.Loop ∧
      t.handle = TaskHandle.loopHandle a := by
  rcases List.mem_flatMap.mp ht with ⟨id, hid, hmem⟩
  rw [restartSpawnOfId] at hmem
  rcases hget : newAutomationsGet c id with _ | a
  · simp only [hget] at hmem
    simp at hmem
  · simp only [hget] at hmem
    rcases hty : a.automation_type with _ | _
    · simp only [hty] at hmem
      have ht' : t = ⟨id, TaskHandle.loopHandle a⟩ := by simpa using hmem
      subst ht'
      exact ⟨hid, a, hget, hty, rfl⟩
    · simp only [hty] at hmem
      simp at hmem

theorem no_sentinel_in_spawn_union (st : ServiceState) (c : Config)
    (h2 : immediateWatcherId ∉ (enabledAutomations c).map (·.id)) :
    hasImmediate ((to_restart_ids st c).flatMap (restartSpawnOfId c) ++
      (to_start_ids st c).flatMap (restartSpawnOfId c)) = false := by
  apply hasImmediate_eq_false
  intro t ht hteq
  rcases List.mem_append.mp ht with h | h
  · rcases mem_flatMap_restartSpawnOfId h with ⟨hid, -⟩
    rw [to_restart_ids] at hid
    exact h2 (hteq ▸ mem_new_automation_ids.mp (List.mem_filter.mp hid).1)
  · rcases mem_flatMap_restartSpawnOfId h with ⟨hid, -⟩
    rw [to_start_ids] at hid
    exact h2 (hteq ▸ mem_new_automation_ids.mp (List.mem_filter.mp hid).1)

theorem startPhase_characterization (c : Config) (tasks : List AutomationTask)
    (to_start : List String)
    (hids : hasImmediate (tasks ++ (startSpawns c to_start).1) = false)
    (hchats : (startSpawns c to_start).2.1 = all_immediate_chat_ids c)
    (hne : to_start.isEmpty = true → all_immediate_chat_ids c = []) :
    (startPhase c tasks to_start).1 =
      tasks ++ to_start.flatMap (restartSpawnOfId c) ++
      (if (all_immediate_chat_ids c).isEmpty then []
       else [⟨immediateWatcherId, TaskHandle.immediateHandle
         (sortDedup (all_immediate_chat_ids c))⟩]) := by
  simp only [startPhase]
  by_cases h : to_start.isEmpty = true
  · rw [if_pos h]
    have h0 := hne h
    have h' : to_start = [] := List.isEmpty_iff.mp h
    subst h'
    simp [h0]
  · rw [if_neg h, hchats]
    by_cases hempty : (all_immediate_chat_ids c).isEmpty = true
    · rw [if_pos hempty, if_pos hempty]
      simp only [List.append_nil]
      rfl
    · rw [if_neg hempty, if_neg hempty]
      rw [hids]
      rw [if_neg (by simp)]
      rfl

theorem to_restart_no_immediate (st : ServiceState) (c : Config)
    (h3 : ∀ a ∈ enabledAutomations c,
      a.automation_type = AutomationType.Immediate →
      a.id ∉ taskIds st.automation_tasks) :
    (to_restart_ids st c).any (fun id =>
      ((newAutomationsGet c id).map
        (fun a => a.automation_type == AutomationType.Immediate)).getD false) =
      false := by
  rw [List.any_eq_false]
  intro id hid
  rw [to_restart_ids] at hid
  have hmemold : id ∈ taskIds st.automation_tasks := by
    have h' := (List.mem_filter.mp hid).2
    simpa using h'
  rcases hget : newAutomationsGet c id with _ | a
  · simp [hget]
  · rcases newAutomationsGet_eq_some hget with ⟨ha, hid'⟩
    rcases hty : a.automation_type with _ | _
    · simp [hget, hty]
    · exact absurd hmemold (hid' ▸ h3 a ha hty)

theorem secondImmediatePhase_skip (c : Config) (tasks : List AutomationTask)
    (to_restart : List String)
    (hno : to_restart.any (fun id =>
      ((newAutomationsGet c id).map
        (fun a => a.automation_type == AutomationType.Immediate)).getD false) =
      false) :
    secondImmediatePhase c tasks to_restart = (tasks, []) := by
  simp only [secondImmediatePhase]
  by_cases h : (all_immediate_chat_ids c).isEmpty = true
  · rw [if_pos h]
  · rw [if_neg h, hno, Bool.and_false]
    rw [if_neg (by simp)]

theorem reload_tasks_characterization (st : ServiceState) (c : Config)
    (h1 : ((enabledAutomations c).map (·.id)).Nodup)
    (h2 : immediateWatcherId ∉ (enabledAutomations c).map (·.id))
    (h3 : ∀ a ∈ enabledAutomations c,
      a.automation_type = AutomationType.Immediate →
      a.id ∉ taskIds st.automation_tasks) :
    (handle_config_reload st c).1.automation_tasks =
      (to_restart_ids st c).flatMap (restartSpawnOfId c) ++
      (to_start_ids st c).flatMap (restartSpawnOfId c) ++
      (if (all_immediate_chat_ids c).isEmpty then []
       else [⟨immediateWatcherId, TaskHandle.immediateHandle
         (sortDedup (all_immediate_chat_ids c))⟩]) := by
  have hne : (to_start_ids st c).isEmpty = true →
      all_immediate_chat_ids c = [] := by
    intro hemp
    apply all_immediate_nil_of_no_imm
    intro a ha himm
    have h3' := h3 a ha himm
    have hmem : a.id ∈ to_start_ids st c := by
      rw [to_start_ids]
      refine List.mem_filter.mpr
        ⟨mem_new_automation_ids.mpr (List.mem_map_of_mem _ ha), ?_⟩
      simpa using h3'
    rw [List.isEmpty_iff.mp hemp] at hmem
    cases hmem
  simp only [handle_config_reload]
  rw [tasks_after_stop_restart st c]
  rw [startPhase_characterization c _ _ (no_sentinel_in_spawn_union st c h2)
    (startSpawns_chats st c h1 h3) hne]
  rw [secondImmediatePhase_skip c _ _ (to_restart_no_immediate st c h3)]

theorem abortMatching_emits {tasks : List AutomationTask} {ids : List String}
    {t : AutomationTask} (ht : t ∈ tasks) (hid : t.automation_id ∈ ids) :
    Event.abortTask t.automation_id ∈ (abortMatching tasks ids).2 := by
  rw [abortMatching]
  exact List.mem_map_of_mem _ (List.mem_filter.mpr ⟨ht, by simpa using hid⟩)

theorem abortMatching_keeps {tasks : List AutomationTask} {ids : List String}
    {t : AutomationTask} (ht : t ∈ tasks) (hid : t.automation_id ∉ ids) :
    t ∈ (abortMatching tasks ids).1 := by
  rw [abortMatching]
  exact List.mem_filter.mpr ⟨ht, by simpa using hid⟩

theorem reload_aborts_all (st : ServiceState) (c : Config) :
    ∀ t ∈ st.automation_tasks,
      Event.abortTask t.automation_id ∈ (handle_config_reload st c).2 := by
  intro t ht
  simp only [handle_config_reload, stopPhase_eq, restartPhase_eq,
    List.mem_append]
  by_cases hm : t.automation_id ∈ new_automation_ids c
  · have hstop : t.automation_id ∉ to_stop_ids st c := by
      rw [to_stop_ids]
      intro hmem
      have h' := (List.mem_filter.mp hmem).2
      simp at h'
      exact h' hm
    have hmemtid : t.automation_id ∈ taskIds st.automation_tasks :=
      List.mem_map_of_mem (·.automation_id) ht
    have hres : t.automation_id ∈ to_restart_ids st c := by
      rw [to_restart_ids]
      exact List.mem_filter.mpr ⟨hm, by simpa using hmemtid⟩
    exact Or.inl (Or.inl (Or.inr
      (Or.inl (abortMatching_emits (abortMatching_keeps ht hstop) hres))))
  · have hstop : t.automation_id ∈ to_stop_ids st c := by
      rw [to_stop_ids]
      exact List.mem_filter.mpr
        ⟨List.mem_map_of_mem (·.automation_id) ht, by simpa using hm⟩
    exact Or.inl (Or.inl (Or.inl (abortMatching_emits ht hstop)))

theorem spawn_partition_perm (st : ServiceState) (c : Config) :
    List.Perm ((to_restart_ids st c).flatMap (restartSpawnOfId c) ++
      (to_start_ids st c).flatMap (restartSpawnOfId c))
      ((new_automation_ids c).flatMap (restartSpawnOfId c)) := by
  rw [← List.flatMap_append]
  apply List.Perm.flatMap_right
  rw [to_restart_ids, to_start_ids]
  exact List.filter_append_perm _ _

theorem filter_sentinel_spawns (c : Config) (ids : List String)
    (h : immediateWatcherId ∉ ids) :
    (ids.flatMap (restartSpawnOfId c)).filter
      (fun t => t.automation_id == immediateWatcherId) = [] := by
  apply List.filter_eq_nil_iff.mpr
  intro t ht hpred
  rcases mem_flatMap_restartSpawnOfId ht with ⟨hid, -⟩
  have heq : t.automation_id = immediateWatcherId := by simpa using hpred
  exact h (heq ▸ hid)

theorem loop_rule_task_started (st : ServiceState) (c : Config)
    (h1 : ((enabledAutomations c).map (·.id)).Nodup)
    (h2 : immediateWatcherId ∉ (enabledAutomations c).map (·.id))
    (h3 : ∀ a ∈ enabledAutomations c,
      a.automation_type = AutomationType.Immediate →
      a.id ∉ taskIds st.automation_tasks)
    (a : NotificationAutomation) (ha : a ∈ enabledAutomations c)
    (hty : a.automation_type = AutomationType.Loop) :
    (⟨a.id, TaskHandle.loopHandle a⟩ : AutomationTask) ∈
      (handle_config_reload st c).1.automation_tasks := by
  rw [reload_tasks_characterization st c h1 h2 h3]
  have hid : a.id ∈ new_automation_ids c :=
    mem_new_automation_ids.mpr (List.mem_map_of_mem _ ha)
  have hspawn : (⟨a.id, TaskHandle.loopHandle a⟩ : AutomationTask) ∈
      restartSpawnOfId c a.id := by
    simp only [restartSpawnOfId, newAutomationsGet_self h1 ha, hty]
    exact List.mem_singleton.mpr rfl
  by_cases hold : a.id ∈ taskIds st.automation_tasks
  · refine List.mem_append.mpr (Or.inl (List.mem_append.mpr (Or.inl
      (List.mem_flatMap.mpr ⟨a.id, ?_, hspawn⟩))))
    rw [to_restart_ids]
    exact List.mem_filter.mpr ⟨hid, by simpa using hold⟩
  · refine List.mem_append.mpr (Or.inl (List.mem_append.mpr (Or.inr
      (List.mem_flatMap.mpr ⟨a.id, ?_, hspawn⟩))))
    rw [to_start_ids]
    exact List.mem_filter.mpr ⟨hid, by simpa using hold⟩

/-- C1 counterexample: reconciling a second time with the identical,
already-applied configuration (one enabled Loop rule `r1`) aborts the
running watcher `r1` — the claim's "zero cancel and zero restart
operations" is false on the code, which conservatively restarts every
surviving rule. -/
theorem reconcile_unchanged_config_aborts_counterexample :
    Event.abortTask "r1" ∈
      (handle_config_reload (handle_config_reload ⟨[], []⟩ exCfgLoop).1
        exCfgLoop).2 ∧
    (handle_config_reload (handle_config_reload ⟨[], []⟩ exCfgLoop).1
        exCfgLoop).2 =
      [Event.abortTask "r1", Event.spawnLoopTask exLoopRule] := by
  constructor
  · decide
  · rfl

/-- C1 (amended): reconciling an already-applied configuration again with
the same enabled rule set is idempotent in its *result* but not in its
operations: the resulting watcher set is a permutation of the existing one
(same ids, same spawn parameters) and the cache is unchanged, but every
running watcher — the shared immediate watcher included — is aborted and
respawned (each running task has an abort event in the second reload). -/
theorem reconcile_unchanged_config_restarts_all_survivors
    (st0 : ServiceState) (c : Config)
    (h1 : ((enabledAutomations c).map (·.id)).Nodup)
    (h2 : immediateWatcherId ∉ (enabledAutomations c).map (·.id))
    (h3 : ∀ a ∈ enabledAutomations c,
      a.automation_type = AutomationType.Immediate →
      a.id ∉ taskIds st0.automation_tasks) :
    List.Perm
      (handle_config_reload (handle_config_reload st0 c).1 c).1.automation_tasks
      (handle_config_reload st0 c).1.automation_tasks ∧
    (handle_config_reload (handle_config_reload st0 c).1 c).1.last_messages =
      (handle_config_reload st0 c).1.last_messages ∧
    ∀ t ∈ (handle_config_reload st0 c).1.automation_tasks,
      Event.abortTask t.automation_id ∈
        (handle_config_reload (handle_config_reload st0 c).1 c).2 := by
  have h3' : ∀ a ∈ enabledAutomations c,
      a.automation_type = AutomationType.Immediate →
      a.id ∉ taskIds (handle_config_reload st0 c).1.automation_tasks := by
    intro a ha himm hmem
    rw [reload_tasks_characterization st0 c h1 h2 h3, taskIds] at hmem
    rcases List.mem_map.mp hmem with ⟨t, htmem, htid⟩
    rcases List.mem_append.mp htmem with h | h
    · have hloop : ∃ b, newAutomationsGet c t.automation_id = some b ∧
          b.automation_type = AutomationType.Loop := by
        rcases List.mem_append.mp h with h' | h'
        · rcases mem_flatMap_restartSpawnOfId h' with ⟨-, b, hget, hbty, -⟩
          exact ⟨b, hget, hbty⟩
        · rcases mem_flatMap_restartSpawnOfId h' with ⟨-, b, hget, hbty, -⟩
          exact ⟨b, hget, hbty⟩
      rcases hloop with ⟨b, hget, hbty⟩
      rw [htid, newAutomationsGet_self h1 ha] at hget
      have hba : b = a := (Option.some.inj hget).symm
      subst hba
      rw [hbty] at himm
      exact AutomationType.noConfusion himm
    · by_cases hempty : (all_immediate_chat_ids c).isEmpty = true
      · rw [if_pos hempty] at h
        cases h
      · rw [if_neg hempty] at h
        have ht' : t = ⟨immediateWatcherId,
            TaskHandle.immediateHandle (sortDedup (all_immediate_chat_ids c))⟩ :=
          List.mem_singleton.mp h
        rw [ht'] at htid
        have hsent : immediateWatcherId = a.id := htid
        exact h2 (by rw [hsent]; exact List.mem_map_of_mem (·.id) ha)
  refine ⟨?_, ?_, fun t ht => reload_aborts_all (handle_config_reload st0 c).1 c t ht⟩
  · rw [reload_tasks_characterization (handle_config_reload st0 c).1 c h1 h2 h3',
      reload_tasks_characterization st0 c h1 h2 h3]
    exact List.Perm.append
      ((spawn_partition_perm (handle_config_reload st0 c).1 c).trans
        (spawn_partition_perm st0 c).symm)
      (List.Perm.refl _)
  · show (handle_config_reload st0 c).1.last_messages.filter
        (fun p => (all_tracked_chat_ids c).contains p.1) =
      (handle_config_reload st0 c).1.last_messages
    exact List.filter_eq_self.mpr (fun x hx => (List.mem_filter.mp hx).2)

/-- Witness for `reconcile_unchanged_config_restarts_all_survivors`:
the single-Loop-rule configuration reconciled from the empty state. -/
theorem reconcile_unchanged_config_restarts_all_survivors_witness :
    List.Perm
      (handle_config_reload (handle_config_reload ⟨[], []⟩ exCfgLoop).1
        exCfgLoop).1.automation_tasks
      (handle_config_reload ⟨[], []⟩ exCfgLoop).1.automation_tasks ∧
    (handle_config_reload (handle_config_reload ⟨[], []⟩ exCfgLoop).1
        exCfgLoop).1.last_messages =
      (handle_config_reload ⟨[], []⟩ exCfgLoop).1.last_messages ∧
    ∀ t ∈ (handle_config_reload ⟨[], []⟩ exCfgLoop).1.automation_tasks,
      Event.abortTask t.automation_id ∈
        (handle_config_reload (handle_config_reload ⟨[], []⟩ exCfgLoop).1
          exCfgLoop).2 :=
  reconcile_unchanged_config_restarts_all_survivors ⟨[], []⟩ exCfgLoop
    (by decide) (by decide) (by decide)

/-- C2 counterexample: rule `X` changes kind from Loop to Immediate across
a reload while keeping its id.  After reconciling the new configuration —
which has an enabled Immediate rule whose chat union `{c1}` is non-empty —
no watcher at all is running: `X` sits in `to_restart`, the restart loop
ignores Immediate rules, the start loop never sees `X`, and the
second-pass restart requires an already-running immediate watcher. -/
theorem immediate_union_after_kind_flip_counterexample :
    (handle_config_reload (handle_config_reload ⟨[], []⟩ exCfgFlip1).1
        exCfgFlip2).1.automation_tasks = [] ∧
    all_immediate_chat_ids exCfgFlip2 = ["c1"] ∧
    exFlipImm ∈ enabledAutomations exCfgFlip2 ∧
    exFlipImm.automation_type = AutomationType.Immediate :=
  ⟨rfl, rfl, by decide, rfl⟩

/-- C2 (amended): provided no enabled Immediate rule's id coincides with a
currently-running task id (in particular, no rule changed kind from Loop
to Immediate in this reload), reconciliation leaves exactly one immediate
watcher — scoped to the sorted deduplication of the union of `chat_ids`
over *all* currently-enabled Immediate rules — when that union is
non-empty, and none when the union is empty (stopped, not replaced). -/
theorem immediate_watcher_scoped_to_full_union (st : ServiceState) (c : Config)
    (h1 : ((enabledAutomations c).map (·.id)).Nodup)
    (h2 : immediateWatcherId ∉ (enabledAutomations c).map (·.id))
    (h3 : ∀ a ∈ enabledAutomations c,
      a.automation_type = AutomationType.Immediate →
      a.id ∉ taskIds st.automation_tasks) :
    ((handle_config_reload st c).1.automation_tasks.filter
        (fun t => t.automation_id == immediateWatcherId)) =
      (if (all_immediate_chat_ids c).isEmpty then []
       else [⟨immediateWatcherId, TaskHandle.immediateHandle
         (sortDedup (all_immediate_chat_ids c))⟩]) ∧
    (∀ x, x ∈ sortDedup (all_immediate_chat_ids c) ↔
      x ∈ all_immediate_chat_ids c) := by
  refine ⟨?_, fun x => mem_sortDedup _ x⟩
  rw [reload_tasks_characterization st c h1 h2 h3]
  rw [List.filter_append, List.filter_append]
  have hsR : immediateWatcherId ∉ to_restart_ids st c := by
    rw [to_restart_ids]
    intro hmem
    exact h2 (mem_new_automation_ids.mp (List.mem_filter.mp hmem).1)
  have hsS : immediateWatcherId ∉ to_start_ids st c := by
    rw [to_start_ids]
    intro hmem
    exact h2 (mem_new_automation_ids.mp (List.mem_filter.mp hmem).1)
  rw [filter_sentinel_spawns c _ hsR, filter_sentinel_spawns c _ hsS]
  by_cases hempty : (all_immediate_chat_ids c).isEmpty = true
  · rw [if_pos hempty]
    rfl
  · rw [if_neg hempty]
    simp

/-- Witness for `immediate_watcher_scoped_to_full_union`: reconciling a
configuration with one enabled Immediate rule over chats `c2`, `c1` from a
state running one stale loop watcher `A`. -/
theorem immediate_watcher_scoped_to_full_union_witness :
    ((handle_config_reload ⟨[⟨"A", TaskHandle.loopHandle exFlipLoop⟩], []⟩
        exCfgImm).1.automation_tasks.filter
        (fun t => t.automation_id == immediateWatcherId)) =
      (if (all_immediate_chat_ids exCfgImm).isEmpty then []
       else [⟨immediateWatcherId, TaskHandle.immediateHandle
         (sortDedup (all_immediate_chat_ids exCfgImm))⟩]) ∧
    (∀ x, x ∈ sortDedup (all_immediate_chat_ids exCfgImm) ↔
      x ∈ all_immediate_chat_ids exCfgImm) :=
  immediate_watcher_scoped_to_full_union
    ⟨[⟨"A", TaskHandle.loopHandle exFlipLoop⟩], []⟩ exCfgImm
    (by decide) (by decide) (by decide)

/-- C3 counterexample: reconciling a configuration containing the
malformed rule `m` (`kind = Loop`, `loop_config = None`) does *start* a
watcher task for `m` — the rule is not skipped at reconciliation time, a
task is spawned and registered under its id (it is the spawned task that
then warns and exits). -/
theorem malformed_rule_still_starts_task_counterexample :
    (⟨"m", TaskHandle.loopHandle exMalformedLoop⟩ : AutomationTask) ∈
      (handle_config_reload ⟨[], []⟩ exCfgMalformed).1.automation_tasks ∧
    Event.spawnLoopTask exMalformedLoop ∈
      (handle_config_reload ⟨[], []⟩ exCfgMalformed).2 :=
  ⟨by decide, by decide⟩

/-- C3 (amended): a malformed rule is not excluded from reconciliation —
every enabled Loop rule, malformed or not, gets a watcher task spawned
and registered (so reconciliation of the other valid rules proceeds and
starts them normally); the spawned task for a Loop rule with no loop
policy reports a warning and returns immediately, never polling or
notifying; and a `ForATime` watcher with no time limit never decides to
notify and fires no effect on any iteration (and reports no warning). -/
theorem malformed_rule_handling (st : ServiceState) (c : Config)
    (a : NotificationAutomation) (lc : LoopConfig)
    (cache : List (String × LastMessageCache)) (chat_id : String)
    (messages : List Message) (chats : List Chat) (now : Nat)
    (h1 : ((enabledAutomations c).map (·.id)).Nodup)
    (h2 : immediateWatcherId ∉ (enabledAutomations c).map (·.id))
    (h3 : ∀ b ∈ enabledAutomations c,
      b.automation_type = AutomationType.Immediate →
      b.id ∉ taskIds st.automation_tasks)
    (ha : a ∈ enabledAutomations c)
    (hty : a.automation_type = AutomationType.Loop) :
    ((⟨a.id, TaskHandle.loopHandle a⟩ : AutomationTask) ∈
      (handle_config_reload st c).1.automation_tasks) ∧
    (a.loop_config = none →
      loop_automation_init a = LoopWatcherInit.missingConfigWarning a.id) ∧
    (lc.until_ = LoopUntil.ForATime → lc.time = none →
      (loop_automation_chat_step a lc cache chat_id messages chats now).2.1 ≠
        some true ∧
      (loop_automation_chat_step a lc cache chat_id messages chats now).2.2 =
        []) := by
  refine ⟨loop_rule_task_started st c h1 h2 h3 a ha hty, ?_, ?_⟩
  · intro h
    simp only [loop_automation_init, h]
  · intro hu htime
    have hlsn : ∀ (c2 : List (String × LastMessageCache)) (msg : Message)
        (chat : Chat),
        (loop_should_notify lc c2 chat_id msg chat now).2 = false := by
      intro c2 msg chat
      simp only [loop_should_notify, hu]
      rcases hg : assocGet c2 chat_id with _ | e
      · simp only [hg]
      · simp only [hg]
        rcases hst : e.notification_start_time with _ | s
        · simp only [hst]
        · simp only [hst, htime]
    simp only [loop_automation_chat_step]
    split
    · exact ⟨fun h => Option.noConfusion h, rfl⟩
    · split
      · exact ⟨fun h => Option.noConfusion h, rfl⟩
      · constructor
        · rw [hlsn]
          exact fun h => Bool.noConfusion (Option.some.inj h)
        · rw [hlsn]
          rfl

/-- Witness for `malformed_rule_handling`: the configuration holding the
malformed rule `m` next to the valid rule `r1`; `m` still gets a task, its
init warns and exits, and a time-limit-less `ForATime` evaluation notifies
nothing. -/
theorem malformed_rule_handling_witness :
    ((⟨"m", TaskHandle.loopHandle exMalformedLoop⟩ : AutomationTask) ∈
      (handle_config_reload ⟨[], []⟩ exCfgMalformed).1.automation_tasks) ∧
    (exMalformedLoop.loop_config = none →
      loop_automation_init exMalformedLoop =
        LoopWatcherInit.missingConfigWarning "m") ∧
    (LoopConfig.until_ ⟨LoopUntil.ForATime, none, 3000⟩ = LoopUntil.ForATime →
      LoopConfig.time ⟨LoopUntil.ForATime, none, 3000⟩ = none →
      (loop_automation_chat_step exMalformedLoop ⟨LoopUntil.ForATime, none, 3000⟩
        [] "c3" [exMsg] [exChat] 0).2.1 ≠ some true ∧
      (loop_automation_chat_step exMalformedLoop ⟨LoopUntil.ForATime, none, 3000⟩
        [] "c3" [exMsg] [exChat] 0).2.2 = []) :=
  malformed_rule_handling ⟨[], []⟩ exCfgMalformed exMalformedLoop
    ⟨LoopUntil.ForATime, none, 3000⟩ [] "c3" [exMsg] [exChat] 0
    (by decide) (by decide) (by decide) (by decide) rfl

theorem lsn_cache_of_closed (lc : LoopConfig)
    (c2 : List (String × LastMessageCache)) (chat_id : String) (msg : Message)
    (chat : Chat) (now : Nat) (e : LastMessageCache)
    (hget : assocGet c2 chat_id = some e)
    (hcl : e.notification_start_time = none) :
    (loop_should_notify lc c2 chat_id msg chat now).1 = c2 ∧
    (lc.until_ = LoopUntil.ForATime →
      (loop_should_notify lc c2 chat_id msg chat now).2 = false) := by
  rcases hu : lc.until_ with _ | _ | _
  · constructor
    · simp only [loop_should_notify, hu]
    · intro h
      exact LoopUntil.noConfusion h
  · constructor
    · simp only [loop_should_notify, hu]
      rcases msg.is_sender with _ | _ <;> rfl
    · intro h
      exact LoopUntil.noConfusion h
  · have he : loop_should_notify lc c2 chat_id msg chat now = (c2, false) := by
      simp only [loop_should_notify, hu, hget, hcl]
    exact ⟨by rw [he], fun _ => by rw [he]⟩

/-- C8 counterexample: on the very first observation of chat `c1` (no
cache entry) a Loop watcher with policy `MessageSeen` and unread count 3
fires its focus and sound effects in that same iteration, refuting that
seeding is always silent. -/
theorem loop_first_observation_fires_counterexample :
    assocGet [] "c1" = none ∧
    (loop_automation_chat_step exLoopRule ⟨LoopUntil.MessageSeen, none, 3000⟩
        [] "c1" [exMsg] [exChat] 0).2.2 =
      [Event.focusChat "c1", Event.playSound "beep.wav"] :=
  ⟨rfl, rfl⟩

/-- C8 (amended): first observation of a chat seeds the cache (an entry
carrying the newest message with a closed window) and is never treated as
a new message; the immediate watcher fires nothing on first observation,
and a `ForATime` loop watcher decides `false` and fires nothing — but a
loop watcher under `MessageSeen` or `Answer` evaluates its condition even
on the seeding iteration and may fire (see the counterexample). -/
theorem first_observation_seeds_cache (config : Config)
    (a : NotificationAutomation) (lc : LoopConfig)
    (cache : List (String × LastMessageCache)) (chat_id : String)
    (messages : List Message) (chats : List Chat) (now : Nat) (msg : Message)
    (hmsg : messages.head? = some msg)
    (hget : assocGet cache chat_id = none) :
    immediate_watcher_chat_step config cache chat_id messages =
      (assocInsert cache chat_id ⟨msg.id, msg.sort_key, none⟩, []) ∧
    (loop_automation_chat_step a lc cache chat_id messages chats now).1 =
      assocInsert cache chat_id ⟨msg.id, msg.sort_key, none⟩ ∧
    (lc.until_ = LoopUntil.ForATime →
      (loop_automation_chat_step a lc cache chat_id messages chats now).2.1 ≠
        some true ∧
      (loop_automation_chat_step a lc cache chat_id messages chats now).2.2 =
        []) := by
  have hc2 := loop_cache_after_update_first lc cache chat_id msg now hget
  refine ⟨immediate_step_first config cache chat_id messages msg hmsg hget, ?_, ?_⟩
  · simp only [loop_automation_chat_step, hmsg]
    split
    · exact hc2
    · rw [hc2]
      exact (lsn_cache_of_closed lc _ chat_id msg _ now
        ⟨msg.id, msg.sort_key, none⟩ (assocGet_insert_self _ _ _) rfl).1
  · intro hu
    simp only [loop_automation_chat_step, hmsg]
    split
    · exact ⟨fun h => Option.noConfusion h, rfl⟩
    next chat heq =>
      rw [hc2]
      have hn := (lsn_cache_of_closed lc
        (assocInsert cache chat_id ⟨msg.id, msg.sort_key, none⟩) chat_id msg
        chat now ⟨msg.id, msg.sort_key, none⟩
        (assocGet_insert_self _ _ _) rfl).2 hu
      rw [hn]
      exact ⟨fun h => Bool.noConfusion (Option.some.inj h), rfl⟩

/-- Witness for `first_observation_seeds_cache`: first observation of
chat `c1` under the `ForATime` policy seeds the cache and fires nothing. -/
theorem first_observation_seeds_cache_witness :
    immediate_watcher_chat_step exCfgImm [] "c1" [exMsg] =
      (assocInsert [] "c1" ⟨"m1", "0005", none⟩, []) ∧
    (loop_automation_chat_step exLoopRule exForATime [] "c1" [exMsg] [exChat] 0).1 =
      assocInsert [] "c1" ⟨"m1", "0005", none⟩ ∧
    (exForATime.until_ = LoopUntil.ForATime →
      (loop_automation_chat_step exLoopRule exForATime [] "c1" [exMsg] [exChat]
        0).2.1 ≠ some true ∧
      (loop_automation_chat_step exLoopRule exForATime [] "c1" [exMsg] [exChat]
        0).2.2 = []) :=
  first_observation_seeds_cache exCfgImm exLoopRule exForATime [] "c1" [exMsg]
    [exChat] 0 exMsg rfl rfl

/-- C5: for a Loop rule with policy `ForATime` and limit `T`, after the
new-message update the chat always has a cache entry; `should_notify` is
`false` when its notify window is closed, and when the window opened at
`s` it equals `now - s < T` (strictly), with reaching or exceeding `T`
clearing the window in the resulting cache.  Moreover, with the window
closed and no strictly newer message, the cache is left unchanged (the
window does not reopen), so the decision stays `false`. -/
theorem for_a_time_notify_window (a : NotificationAutomation) (lc : LoopConfig)
    (cache : List (String × LastMessageCache)) (chat_id : String)
    (messages : List Message) (chats : List Chat) (now : Nat)
    (msg : Message) (chat : Chat) (T : Nat)
    (huntil : lc.until_ = LoopUntil.ForATime)
    (htime : lc.time = some T)
    (hmsg : messages.head? = some msg)
    (hchat : chats.find? (fun c => c.id == chat_id) = some chat) :
    (∃ e, assocGet (loop_update_on_new lc (loop_detect_new cache chat_id msg).1
        chat_id msg (loop_detect_new cache chat_id msg).2 now) chat_id = some e ∧
      (e.notification_start_time = none →
        (loop_automation_chat_step a lc cache chat_id messages chats now).2.1 =
          some false) ∧
      (∀ s, e.notification_start_time = some s →
        (loop_automation_chat_step a lc cache chat_id messages chats now).2.1 =
          some (decide (now - s < T)) ∧
        (now - s ≥ T →
          assocGet (loop_automation_chat_step a lc cache chat_id messages chats now).1
            chat_id = some ⟨e.message_id, e.sort_key, none⟩))) ∧
    (∀ c0, assocGet cache chat_id = some c0 →
      c0.notification_start_time = none → ¬ c0.sort_key < msg.sort_key →
      (loop_automation_chat_step a lc cache chat_id messages chats now).1 = cache ∧
      (loop_automation_chat_step a lc cache chat_id messages chats now).2.1 =
        some false) := by
  rw [loop_step_unfold a lc cache chat_id messages chats now msg chat hmsg hchat]
  constructor
  · rcases h0 : assocGet cache chat_id with _ | c0
    · -- first observation: seeded entry with a closed window
      rw [loop_cache_after_update_first lc cache chat_id msg now h0]
      refine ⟨⟨msg.id, msg.sort_key, none⟩, assocGet_insert_self _ _ _, ?_, ?_⟩
      · intro _
        rw [lsn_forATime lc _ chat_id msg chat now _ T huntil htime
          (assocGet_insert_self _ _ _)]
      · intro s hs
        exact Option.noConfusion hs
    · by_cases hnew : c0.sort_key < msg.sort_key
      · -- new message: the window opens at `now`
        rw [loop_cache_after_update_new lc cache chat_id msg now c0 h0 hnew huntil]
        refine ⟨⟨msg.id, msg.sort_key, some now⟩, assocGet_insert_self _ _ _, ?_, ?_⟩
        · intro h
          exact Option.noConfusion h
        · intro s hs
          have hs' : s = now := by
            simpa using hs.symm
          rw [hs']
          rw [lsn_forATime lc _ chat_id msg chat now _ T huntil htime
            (assocGet_insert_self _ _ _)]
          by_cases hexp : now - now ≥ T
          · have hT : T = 0 := Nat.le_zero.mp (by simpa using hexp)
            simp only [hexp, if_pos]
            refine ⟨by simp [hT], fun _ => ?_⟩
            exact assocGet_insert_self _ _ _
          · simp only [hexp, if_neg, not_false_eq_true]
            have h' : 0 < T := by simpa using Nat.lt_of_not_le hexp
            exact ⟨by simp [h'], fun h => h.elim⟩
      · -- no new message: the cached entry is the decision's window
        rw [loop_cache_after_update_stale lc cache chat_id msg now c0 h0 hnew]
        refine ⟨c0, h0, ?_, ?_⟩
        · intro hcl
          rw [lsn_forATime lc cache chat_id msg chat now c0 T huntil htime h0, hcl]
        · intro s hs
          rw [lsn_forATime lc cache chat_id msg chat now c0 T huntil htime h0, hs]
          by_cases hexp : now - s ≥ T
          · simp only [hexp, if_pos]
            refine ⟨by simp [Nat.not_lt.mpr hexp], fun _ => ?_⟩
            exact assocGet_insert_self _ _ _
          · simp only [hexp, if_neg, not_false_eq_true]
            have h' : now - s < T := Nat.lt_of_not_le hexp
            exact ⟨by simp [h'], fun h => h.elim⟩
  · intro c0 h0 hcl hnew
    rw [loop_cache_after_update_stale lc cache chat_id msg now c0 h0 hnew,
      lsn_forATime lc cache chat_id msg chat now c0 T huntil htime h0, hcl]
    exact ⟨rfl, rfl⟩

/-- Witness for `for_a_time_notify_window`: limit 1000 ms, a new message
(sort key `0007` over cached `0005`) opens the window at `now = 50`. -/
theorem for_a_time_notify_window_witness :
    ∃ e, assocGet (loop_update_on_new exForATime
        (loop_detect_new [("c1", ⟨"m1", "0005", none⟩)] "c1" exMsg2).1
        "c1" exMsg2 (loop_detect_new [("c1", ⟨"m1", "0005", none⟩)] "c1" exMsg2).2 50)
        "c1" = some e ∧
      (e.notification_start_time = none →
        (loop_automation_chat_step exLoopRule exForATime
          [("c1", ⟨"m1", "0005", none⟩)] "c1" [exMsg2] [exChat] 50).2.1 = some false) ∧
      (∀ s, e.notification_start_time = some s →
        (loop_automation_chat_step exLoopRule exForATime
          [("c1", ⟨"m1", "0005", none⟩)] "c1" [exMsg2] [exChat] 50).2.1 =
          some (decide (50 - s < 1000)) ∧
        (50 - s ≥ 1000 →
          assocGet (loop_automation_chat_step exLoopRule exForATime
            [("c1", ⟨"m1", "0005", none⟩)] "c1" [exMsg2] [exChat] 50).1 "c1" =
            some ⟨e.message_id, e.sort_key, none⟩)) :=
  (for_a_time_notify_window exLoopRule exForATime [("c1", ⟨"m1", "0005", none⟩)]
    "c1" [exMsg2] [exChat] 50 exMsg2 exChat 1000 rfl rfl rfl rfl).1

/-- C6: when the immediate watcher sees a strictly newer sort key for a
chat, the emitted event sequence is the cache update followed by the
effects of every enabled Immediate rule covering the chat (so the cache is
written before any effect fires, and each matching rule fires its
configured effects once); re-running the step on the updated cache with
the same newest message fires nothing and leaves the cache unchanged. -/
theorem immediate_new_message_fires_once (config : Config)
    (cache : List (String × LastMessageCache)) (chat_id : String)
    (messages : List Message) (msg : Message) (cached : LastMessageCache)
    (hmsg : messages.head? = some msg)
    (hget : assocGet cache chat_id = some cached)
    (hlt : cached.sort_key < msg.sort_key) :
    (immediate_watcher_chat_step config cache chat_id messages).2 =
      Event.updateCache chat_id msg.sort_key ::
        (immediateFiringRules config chat_id).flatMap (ruleEffects chat_id) ∧
    assocGet (immediate_watcher_chat_step config cache chat_id messages).1 chat_id =
      some ⟨msg.id, msg.sort_key, none⟩ ∧
    immediate_watcher_chat_step config
        (immediate_watcher_chat_step config cache chat_id messages).1 chat_id
        messages =
      ((immediate_watcher_chat_step config cache chat_id messages).1, []) := by
  rw [immediate_step_new config cache chat_id messages msg cached hmsg hget hlt]
  refine ⟨rfl, assocGet_insert_self _ _ _, ?_⟩
  exact immediate_step_stale config _ chat_id messages msg
    ⟨msg.id, msg.sort_key, none⟩ hmsg (assocGet_insert_self _ _ _) (lt_irrefl _)

/-- Witness for `immediate_new_message_fires_once`: two enabled Immediate
rules both covering chat `c1`; a newer message (`0007` over `0005`)
updates the cache first, then fires both rules' effects once each, and a
second iteration with the same newest message fires nothing. -/
theorem immediate_new_message_fires_once_witness :
    (immediate_watcher_chat_step ⟨⟨"", ""⟩, ⟨[exImmRule, exFlipImm]⟩⟩
        [("c1", ⟨"m1", "0005", none⟩)] "c1" [exMsg2]).2 =
      Event.updateCache "c1" "0007" ::
        (immediateFiringRules ⟨⟨"", ""⟩, ⟨[exImmRule, exFlipImm]⟩⟩ "c1").flatMap
          (ruleEffects "c1") ∧
    assocGet (immediate_watcher_chat_step ⟨⟨"", ""⟩, ⟨[exImmRule, exFlipImm]⟩⟩
        [("c1", ⟨"m1", "0005", none⟩)] "c1" [exMsg2]).1 "c1" =
      some ⟨"m2", "0007", none⟩ ∧
    immediate_watcher_chat_step ⟨⟨"", ""⟩, ⟨[exImmRule, exFlipImm]⟩⟩
        (immediate_watcher_chat_step ⟨⟨"", ""⟩, ⟨[exImmRule, exFlipImm]⟩⟩
          [("c1", ⟨"m1", "0005", none⟩)] "c1" [exMsg2]).1 "c1" [exMsg2] =
      ((immediate_watcher_chat_step ⟨⟨"", ""⟩, ⟨[exImmRule, exFlipImm]⟩⟩
          [("c1", ⟨"m1", "0005", none⟩)] "c1" [exMsg2]).1, []) :=
  immediate_new_message_fires_once ⟨⟨"", ""⟩, ⟨[exImmRule, exFlipImm]⟩⟩
    [("c1", ⟨"m1", "0005", none⟩)] "c1" [exMsg2] exMsg2 ⟨"m1", "0005", none⟩
    rfl rfl (by rw [String.lt_iff_toList_lt]; decide)

end BeeperAutomations
